import Mathlib

/-!
Verification of the FAQ Emergence App's adaptive learning core.

The development shallowly embeds:
* `lib/quality.js` (`QualityEvaluator`): string-metric scoring of generated
  FAQ candidates, with JS string semantics (`split(/\s+/)`, `split('\n\n')`,
  `split(/[.!?]+/)`, `includes`, `toLowerCase`) modelled on `List Char`;
* `db/schema.sql` (`update_adaptive_param`, `get_best_params`): the adaptive
  parameter store, modelled as a list of rows with the SQL
  `UNIQUE (scenario_code, params)` conflict rule;
* `lib/database.js` (`getBestParameters`, `learnParameters`): read failures
  degrade to `null`, write failures rethrow;
* `lib/adaptive.js` (`AdaptiveLearner`): the bounded retry / learning loop,
  with the generation client abstracted as a per-call oracle and JS runtime
  errors (property access on `undefined` / `null`) made explicit.

Numbers are modelled as exact rationals; `toFixed(3)` becomes `round3`.
-/

/-! ## JS string primitives -/

/-- JS `\s` for the characters that occur in this code base
(space, tab, newline, carriage return, form feed, vertical tab). -/
def jsWsChar (c : Char) : Bool :=
  c == ' ' || c == '\t' || c == '\n' || c == '\r' || c == '\x0c' || c == '\x0b'

/-- Characters matched by the sentence separator class `[.!?]`. -/
def sentSepChar (c : Char) : Bool :=
  c == '.' || c == '!' || c == '?'

/-- Core of JS `String.prototype.split` on a one-character-class regex with a
`+` quantifier (`/\s+/`, `/[.!?]+/`): maximal runs of separator characters
split the string, a leading (resp. trailing) run contributes a leading
(resp. trailing) empty piece, and the empty string yields `[[]]`.
`inSep` records whether we are inside a separator run. -/
def splitRunsGo (p : Char → Bool) : Bool → List Char → List Char → List (List Char)
  | _, [], acc => [acc.reverse]
  | inSep, c :: cs, acc =>
    if p c then
      if inSep then splitRunsGo p true cs acc
      else acc.reverse :: splitRunsGo p true cs []
    else splitRunsGo p false cs (c :: acc)

/-- JS `s.split(/re+/)` for a character-class regex given by `p`. -/
def splitRuns (p : Char → Bool) (s : String) : List String :=
  (splitRunsGo p false s.toList []).map String.mk

/-- JS `s.split(/\s+/)`. -/
def jsSplitWs (s : String) : List String := splitRuns jsWsChar s

/-- JS `s.split('\n\n')`: split on each (leftmost, non-overlapping)
occurrence of a double newline. -/
def splitParaGo : List Char → List Char → List (List Char)
  | [], acc => [acc.reverse]
  | '\n' :: '\n' :: rest, acc => acc.reverse :: splitParaGo rest []
  | c :: rest, acc => splitParaGo rest (c :: acc)

/-- JS `s.split('\n\n')` on strings. -/
def jsSplitPara (s : String) : List String :=
  (splitParaGo s.toList []).map String.mk

/-- Does `pre` occur at the start of `l`? -/
def prefTest : List Char → List Char → Bool
  | [], _ => true
  | _ :: _, [] => false
  | a :: as, b :: bs => a == b && prefTest as bs

/-- Does `needle` occur somewhere inside `hay`? -/
def hasSub (needle : List Char) : List Char → Bool
  | [] => needle.isEmpty
  | c :: cs => prefTest needle (c :: cs) || hasSub needle cs

/-- JS `hay.includes(needle)`. -/
def jsIncludes (hay needle : String) : Bool := hasSub needle.toList hay.toList

/-- JS `s.toLowerCase()` (ASCII-adequate). -/
def jsToLower (s : String) : String := String.mk (s.toList.map Char.toLower)

/-- JS `s.trim().length > 0`: the string contains a non-whitespace
character. -/
def hasNonWs (s : String) : Bool := s.toList.any (fun c => !(jsWsChar c))

/-! ## QualityEvaluator (`lib/quality.js`) -/

/-- A parsed FAQ candidate as produced by `GeminiService._parseResponse`:
`title` / `answer` / `category` are strings that may be absent, `keywords`
is an array that may be absent. -/
structure FaqData where
  title : Option String
  answer : Option String
  category : Option String
  keywords : Option (List String)
  deriving DecidableEq, Repr

/-- The per-metric breakdown of a quality evaluation.  The JS object uses the
keys `completeness`, `length`, `structure`, `relevance`. -/
structure Breakdown where
  completeness : ℚ
  lengthScore : ℚ
  structureScore : ℚ
  relevance : ℚ
  deriving DecidableEq, Repr

/-- `QualityEvaluator._evaluateCompleteness`: each of the four required
fields contributes `0.25` when present and non-empty (for `keywords`:
a non-empty array; for the string fields: truthy and with non-blank
content). -/
def evaluateCompleteness (f : FaqData) : ℚ :=
  (match f.title with
   | none => 0
   | some s => if s = "" then 0 else if hasNonWs s then 0.25 else 0) +
  (match f.answer with
   | none => 0
   | some s => if s = "" then 0 else if hasNonWs s then 0.25 else 0) +
  (match f.category with
   | none => 0
   | some s => if s = "" then 0 else if hasNonWs s then 0.25 else 0) +
  (match f.keywords with
   | none => 0
   | some l => if l.length > 0 then 0.25 else 0)

/-- `QualityEvaluator._evaluateLength`: word-count banding of the answer
(`answer.split(/\s+/).length`). -/
def evaluateLength (f : FaqData) : ℚ :=
  let answer := f.answer.getD ""
  let wordCount := (jsSplitWs answer).length
  if 50 ≤ wordCount ∧ wordCount ≤ 300 then 1.0
  else if 30 ≤ wordCount ∧ wordCount ≤ 500 then 0.7
  else if wordCount < 10 then 0.1
  else 0.5

/-- `QualityEvaluator._evaluateStructure`: paragraph count, sentence count
and title word-count each contribute a capped partial score. -/
def evaluateStructure (f : FaqData) : ℚ :=
  let answer := f.answer.getD ""
  let paragraphs := (jsSplitPara answer).filter hasNonWs
  let sentences := (splitRuns sentSepChar answer).filter hasNonWs
  let title := f.title.getD ""
  let titleLength := (jsSplitWs title).length
  let score : ℚ :=
    (if 2 ≤ paragraphs.length then 0.4
     else if paragraphs.length = 1 then 0.2 else 0) +
    (if 3 ≤ sentences.length then 0.3 else 0) +
    (if 3 ≤ titleLength ∧ titleLength ≤ 15 then 0.3 else 0)
  min score 1.0

/-- The stop-word set of `QualityEvaluator._evaluateRelevance`. -/
def stopWords : List String :=
  ["what", "how", "why", "when", "where", "who", "is", "are", "the", "a", "an"]

/-- `QualityEvaluator._evaluateRelevance`: base `0.5`, plus up to `0.5`
proportional to the fraction of non-trivial prompt keywords (words longer
than 3 characters that are not stop words) occurring in the lower-cased
answer or title. -/
def evaluateRelevance (f : FaqData) (prompt : String) : ℚ :=
  let promptLower := jsToLower prompt
  let answerLower := jsToLower (f.answer.getD "")
  let titleLower := jsToLower (f.title.getD "")
  let promptWords :=
    (jsSplitWs promptLower).filter (fun w => 3 < w.length && !(stopWords.contains w))
  let matchCount :=
    (promptWords.filter (fun w => jsIncludes answerLower w || jsIncludes titleLower w)).length
  if 0 < promptWords.length then
    min (0.5 + ((matchCount : ℚ) / (promptWords.length : ℚ)) * 0.5) 1.0
  else 0.5

/-- `QualityEvaluator._getQualityLevel`: the threshold table
`{excellent: 0.85, good: 0.70, acceptable: 0.50, poor: 0.30}`. -/
def getQualityLevel (score : ℚ) : String :=
  if 0.85 ≤ score then "excellent"
  else if 0.70 ≤ score then "good"
  else if 0.50 ≤ score then "acceptable"
  else if 0.30 ≤ score then "poor"
  else "failed"

/-- JS `parseFloat(x.toFixed(3))` for the non-negative scores arising here:
round to the nearest multiple of `1/1000`, halves up. -/
def round3 (q : ℚ) : ℚ := (⌊q * 1000 + 1 / 2⌋ : ℚ) / 1000

/-- The weighted total of `QualityEvaluator.evaluateQuality`:
`completeness * 0.35 + length * 0.25 + structure * 0.20 + relevance * 0.20`. -/
def totalScoreOf (f : FaqData) (prompt : String) : ℚ :=
  evaluateCompleteness f * 0.35 + evaluateLength f * 0.25 +
    evaluateStructure f * 0.20 + evaluateRelevance f prompt * 0.20

/-- The result object of `QualityEvaluator.evaluateQuality`. -/
structure EvalQuality where
  score : ℚ
  level : String
  breakdown : Breakdown
  passed : Bool
  deriving DecidableEq, Repr

/-- `QualityEvaluator.evaluateQuality`: weighted sum of the four metrics;
`score` is the total rounded to 3 decimals, while `level` and `passed`
are computed from the unrounded total. -/
def evaluateQuality (f : FaqData) (prompt : String) : EvalQuality :=
  let total := totalScoreOf f prompt
  { score := round3 total
    level := getQualityLevel total
    breakdown :=
      { completeness := evaluateCompleteness f
        lengthScore := evaluateLength f
        structureScore := evaluateStructure f
        relevance := evaluateRelevance f prompt }
    passed := decide (0.50 ≤ total) }

/-- JS runtime errors that the orchestrator can actually raise, plus the
database write error it lets propagate. -/
inductive JsError where
  /-- `TypeError`: reading `breakdown.completeness` when `breakdown` is
  `undefined` (a generation-failure quality object has no breakdown). -/
  | breakdownUndefined
  /-- `TypeError`: reading `result.success` when `bestResult` is `null`. -/
  | nullResult
  /-- A store write error rethrown by `DatabaseService.learnParameters`. -/
  | dbWrite (msg : String)
  deriving DecidableEq, Repr

/-- The scenario classification of `QualityEvaluator.getScenarioCode` once a
breakdown object is in hand: first failing metric in the fixed order
completeness, length, structure, relevance; otherwise `quality_low`. -/
def classifyBreakdown (b : Breakdown) : String :=
  if b.completeness < 0.5 then "incomplete_response"
  else if b.lengthScore < 0.5 then "length_issue"
  else if b.structureScore < 0.5 then "structure_issue"
  else if b.relevance < 0.5 then "relevance_issue"
  else "quality_low"

/-- `QualityEvaluator.getScenarioCode` on a quality object with fields
`passed` and (possibly absent) `breakdown`.  Reading a metric off an absent
breakdown is the JS `TypeError`. -/
def getScenarioCode (passed : Bool) (breakdown : Option Breakdown) :
    Except JsError String :=
  if passed then .ok "success"
  else
    match breakdown with
    | none => .error .breakdownUndefined
    | some b => .ok (classifyBreakdown b)

/-- Decidable equality for `Except`, used to evaluate run outcomes. -/
instance {e a : Type} [DecidableEq e] [DecidableEq a] : DecidableEq (Except e a)
  | .error x, .error y =>
    if h : x = y then isTrue (h ▸ rfl) else isFalse fun hc => h (Except.error.inj hc)
  | .error _, .ok _ => isFalse fun hc => Except.noConfusion hc
  | .ok _, .error _ => isFalse fun hc => Except.noConfusion hc
  | .ok x, .ok y =>
    if h : x = y then isTrue (h ▸ rfl) else isFalse fun hc => h (Except.ok.inj hc)

/-! Spec-side restatement used to check the claimed priority order. -/

/-- First entry of the list whose metric value is below `0.5`; `quality_low`
when none is.  (Transcribed from the specification's words, for comparison
with `classifyBreakdown`.) -/
def firstFailing : List (ℚ × String) → String
  | [] => "quality_low"
  | (v, name) :: rest => if v < 0.5 then name else firstFailing rest

/-- The specification's description of `classifyFailure`: `success` when
passed, otherwise the first metric below `0.5` in the order completeness,
length, structure, relevance. -/
def classifySpec (passed : Bool) (b : Breakdown) : String :=
  if passed then "success"
  else
    firstFailing
      [(b.completeness, "incomplete_response"), (b.lengthScore, "length_issue"),
       (b.structureScore, "structure_issue"), (b.relevance, "relevance_issue")]

/-! ## Parameter store (`db/schema.sql`, `lib/database.js`) -/

/-- A generation parameter configuration (the JSONB `params` payload):
`temperature`, `maxTokens`, `topP`.  Compared by value, as JSONB equality
under the SQL `UNIQUE (scenario_code, params)` constraint. -/
structure Params where
  temperature : ℚ
  maxTokens : Nat
  topP : ℚ
  deriving DecidableEq, Repr

/-- A row of the `adaptive_params` table. -/
structure APRecord where
  scenario_code : String
  params : Params
  quality_score : ℚ
  success_count : Nat
  updated_at : Nat
  deriving DecidableEq, Repr

/-- The `adaptive_params` table. -/
abbrev DB := List APRecord

/-- The SQL function `update_adaptive_param(p_scenario_code, p_params,
p_quality_score)`: insert `(code, params, score, success_count := 1)`;
`ON CONFLICT (scenario_code, params)` increment `success_count`, keep the
larger `quality_score`, refresh `updated_at`.  `now` stands for `NOW()`.
The `UNIQUE` constraint means at most one row can match, so updating the
first match is exact. -/
def update_adaptive_param : DB → String → Params → ℚ → Nat → DB
  | [], code, p, score, now => [⟨code, p, score, 1, now⟩]
  | r :: rest, code, p, score, now =>
    if r.scenario_code = code ∧ r.params = p then
      { r with
          success_count := r.success_count + 1
          quality_score := if r.quality_score < score then score else r.quality_score
          updated_at := now } :: rest
    else r :: update_adaptive_param rest code p score now

/-- Strict comparison used by `ORDER BY quality_score DESC,
success_count DESC, updated_at DESC` in `get_best_params`. -/
def betterRec (a b : APRecord) : Bool :=
  decide (b.quality_score < a.quality_score ∨
    (a.quality_score = b.quality_score ∧
      (b.success_count < a.success_count ∨
        (a.success_count = b.success_count ∧ b.updated_at < a.updated_at))))

/-- The SQL function `get_best_params(p_scenario_code)`: among the rows for
the scenario, the lexicographically best by score, then success count, then
recency (`LIMIT 1`), returning its `(params, quality_score)`. -/
def get_best_params (db : DB) (code : String) : Option (Params × ℚ) :=
  ((db.filter (fun r => r.scenario_code == code)).foldl
      (fun acc r =>
        match acc with
        | none => some r
        | some b => if betterRec r b then some r else some b)
      none).map
    (fun r => (r.params, r.quality_score))

/-- The best stored quality score for a scenario code (0 when no row
exists; scores in this system are non-negative). -/
def bestScore : DB → String → ℚ
  | [], _ => 0
  | r :: rest, code =>
    if r.scenario_code = code then max r.quality_score (bestScore rest code)
    else bestScore rest code

/-- The total `success_count` over all rows of a scenario code. -/
def totalSuccess : DB → String → Nat
  | [], _ => 0
  | r :: rest, code =>
    (if r.scenario_code = code then r.success_count else 0) + totalSuccess rest code

/-- A sequence of `update_adaptive_param` calls, oldest first. -/
def applyUpserts : List (String × Params × ℚ × Nat) → DB → DB
  | [], db => db
  | (code, p, score, now) :: ops, db =>
    applyUpserts ops (update_adaptive_param db code p score now)

/-- `DatabaseService.getBestParameters`: on a successful query return the
row's params (or `null` when no row); on any error, log and return `null`
to fall back to defaults. -/
def getBestParameters (queryResult : Except String (Option Params)) : Option Params :=
  match queryResult with
  | .ok v => v
  | .error _ => none

/-! ## AdaptiveLearner (`lib/adaptive.js`) -/

/-- One call to `GeminiService.generateFAQ`: either parsed FAQ data
(`success: true`) or an error message (`success: false`). -/
inductive GenOutcome where
  | ok (data : FaqData)
  | fail (err : String)
  deriving DecidableEq, Repr

/-- The orchestrator's collaborators: the generation client as a per-call
oracle (indexed by how many generation calls were made before), the result
of the `getBestParameters('success')` query, and the outcome of
`learnParameters` store writes. -/
structure Env where
  gen : Nat → GenOutcome
  dbRead : Except String (Option Params)
  learnWrite : Except String Unit

/-- One entry of the orchestrator's `attemptLog`. -/
structure LogEntry where
  strategy : String
  params : Params
  qualityScore : Option ℚ
  error : Option String
  deriving DecidableEq, Repr

/-- The quality object carried by an attempt result.  A generation failure
produces `{score: 0, passed: false, level: 'failed'}` with no breakdown. -/
structure OrchQuality where
  score : ℚ
  passed : Bool
  level : String
  breakdown : Option Breakdown
  deriving DecidableEq, Repr

/-- The result of `AdaptiveLearner._attemptGeneration`. -/
structure AttemptRes where
  ok : Bool
  quality : OrchQuality
  data : Option FaqData
  log : LogEntry
  deriving DecidableEq, Repr

/-- `AdaptiveLearner._attemptGeneration`: call the client; on failure build
the score-0 failed quality (without breakdown), on success score the data
with `evaluateQuality`. -/
def attemptGeneration (gen : Nat → GenOutcome) (idx : Nat) (prompt : String)
    (p : Params) (name : String) : AttemptRes :=
  match gen idx with
  | .fail e =>
    { ok := false
      quality := { score := 0, passed := false, level := "failed", breakdown := none }
      data := none
      log := { strategy := name, params := p, qualityScore := none, error := some e } }
  | .ok d =>
    let q := evaluateQuality d prompt
    { ok := true
      quality := { score := q.score, passed := q.passed, level := q.level,
                   breakdown := some q.breakdown }
      data := some d
      log := { strategy := name, params := p, qualityScore := some q.score, error := none } }

/-- `AdaptiveLearner._recordSuccess`: `logGeneration` and `updateMetrics`
swallow their errors, but `learnParameters('success', …)` rethrows, so the
write outcome decides whether control returns. -/
def recordSuccess (w : Except String Unit) : Except JsError Unit :=
  match w with
  | .ok _ => .ok ()
  | .error m => .error (.dbWrite m)

/-- The final response shape of `AdaptiveLearner._formatResponse`. -/
structure Response where
  success : Bool
  faq : Option FaqData
  score : ℚ
  level : String
  breakdown : Option Breakdown
  attempts : Nat
  attemptLog : List LogEntry
  deriving DecidableEq, Repr

/-- `AdaptiveLearner._formatResponse`: reading `result.success` off a
`null` best result is the JS `TypeError`. -/
def formatResponse (r : Option AttemptRes) (log : List LogEntry) (attempts : Nat) :
    Except JsError Response :=
  match r with
  | none => .error .nullResult
  | some a =>
    .ok { success := a.ok && a.quality.passed
          faq := a.data
          score := a.quality.score
          level := a.quality.level
          breakdown := a.quality.breakdown
          attempts := attempts
          attemptLog := log }

/-- `this.maxAttempts = 3` from the `AdaptiveLearner` constructor. -/
def maxAttempts : Nat := 3

/-- `this.gemini.defaultParams` from `GeminiService`. -/
def defaultParams : Params := ⟨0.7, 1024, 0.9⟩

/-- `AdaptiveLearner._defineStrategies` combined with
`_getStrategiesForScenario` (unknown codes fall back to the
`quality_low` list). -/
def adaptiveStrategies (code : String) : List (String × Params) :=
  if code = "incomplete_response" then
    [("increase_tokens", ⟨0.7, 1500, 0.9⟩), ("structured_prompt", ⟨0.5, 1200, 0.85⟩)]
  else if code = "length_issue" then
    [("adjust_length", ⟨0.6, 1200, 0.88⟩), ("balanced_output", ⟨0.7, 1000, 0.9⟩)]
  else if code = "structure_issue" then
    [("lower_temp", ⟨0.4, 1024, 0.8⟩), ("focused_gen", ⟨0.5, 1100, 0.85⟩)]
  else if code = "relevance_issue" then
    [("precise_mode", ⟨0.3, 1024, 0.75⟩), ("conservative", ⟨0.4, 900, 0.8⟩)]
  else
    [("creative_boost", ⟨0.8, 1200, 0.92⟩), ("balanced", ⟨0.6, 1100, 0.87⟩)]

/-- The orchestrator's outcome: the returned (or thrown) response together
with the number of generation calls that were issued. -/
structure RunOut where
  out : Except JsError Response
  genCalls : Nat

/-- Phase 3 of `AdaptiveLearner.generateWithLearning`: the strategy loop.
`n` is `currentAttempt`, which equals the number of generation calls made
so far.  A passing attempt triggers `_recordSuccess` (which rethrows store
write errors) and then `learnParameters(scenarioCode, …)` (likewise);
exhaustion falls through to `_recordFailure` (which swallows errors) and
`_formatResponse(bestResult, attemptLog, currentAttempt)`. -/
def adaptiveLoop (gen : Nat → GenOutcome) (w : Except String Unit) (prompt : String) :
    List (String × Params) → Nat → List LogEntry → Option AttemptRes → ℚ → RunOut
  | [], n, log, best, _ => ⟨formatResponse best log n, n⟩
  | (name, p) :: rest, n, log, best, bq =>
    if maxAttempts ≤ n then ⟨formatResponse best log n, n⟩
    else
      let r := attemptGeneration gen n prompt p name
      let log2 := log ++ [r.log]
      if r.quality.passed then
        match recordSuccess w with
        | .error e => ⟨.error e, n + 1⟩
        | .ok _ =>
          match w with
          | .error m => ⟨.error (.dbWrite m), n + 1⟩
          | .ok _ => ⟨formatResponse (some r) log2 (n + 1), n + 1⟩
      else
        adaptiveLoop gen w prompt rest (n + 1) log2
          (if bq < r.quality.score then some r else best)
          (if bq < r.quality.score then r.quality.score else bq)

/-- Phases 2 and 3 of `generateWithLearning`: the default-parameter attempt,
then scenario classification (`getScenarioCode(defaultResult.quality)`,
which throws when the default attempt failed at generation and so has no
breakdown), then the adaptive strategy loop. -/
def afterLearned (gen : Nat → GenOutcome) (w : Except String Unit) (prompt : String)
    (n : Nat) (log : List LogEntry) (best : Option AttemptRes) (bq : ℚ) : RunOut :=
  let r := attemptGeneration gen n prompt defaultParams "default"
  let log2 := log ++ [r.log]
  if r.quality.passed then
    match recordSuccess w with
    | .error e => ⟨.error e, n + 1⟩
    | .ok _ => ⟨formatResponse (some r) log2 (n + 1), n + 1⟩
  else
    let best2 := if bq < r.quality.score then some r else best
    let bq2 := if bq < r.quality.score then r.quality.score else bq
    match getScenarioCode r.quality.passed r.quality.breakdown with
    | .error e => ⟨.error e, n + 1⟩
    | .ok code => adaptiveLoop gen w prompt (adaptiveStrategies code) (n + 1) log2 best2 bq2

/-- `AdaptiveLearner.generateWithLearning`: phase 1 tries the learned
parameters for scenario `success` when the store holds some (a passing
learned attempt returns immediately after `_recordSuccess`), then falls
through to the default attempt and the adaptive loop. -/
def generateWithLearning (env : Env) (prompt : String) : RunOut :=
  match getBestParameters env.dbRead with
  | none => afterLearned env.gen env.learnWrite prompt 0 [] none 0
  | some lp =>
    let r := attemptGeneration env.gen 0 prompt lp "learned"
    if r.quality.passed then
      match recordSuccess env.learnWrite with
      | .error e => ⟨.error e, 1⟩
      | .ok _ => ⟨formatResponse (some r) [r.log] 1, 1⟩
    else
      afterLearned env.gen env.learnWrite prompt 1 [r.log]
        (if 0 < r.quality.score then some r else none)
        (if 0 < r.quality.score then r.quality.score else 0)

/-! ## Request handler prompt validation (`api/generate_faq.js`) -/

/-- The handler's prompt length validation: strictly fewer than 5
characters or strictly more than 5000 characters is rejected with a 400
error before any service is touched. -/
def handlerValidate (prompt : String) : Option String :=
  if prompt.length < 5 then some "Prompt is too short"
  else if 5000 < prompt.length then some "Prompt is too long"
  else none

/-- The handler: validation errors return before the learning core runs;
otherwise the core is invoked on the prompt. -/
def handler (env : Env) (prompt : String) : Except String RunOut :=
  match handlerValidate prompt with
  | some msg => .error msg
  | none => .ok (generateWithLearning env prompt)

/-! ## Concrete inputs used by counterexamples and witnesses -/

/-- A prompt whose 21 keywords are all kept by the relevance filter; only
`zebra` and `quark` occur in the matching candidate below.  The resulting
match ratio `2/21` places the weighted total in `[0.8495, 0.85)`. -/
def cex4Prompt : String :=
  "zebra quark qqqa qqqb qqqc qqqd qqqe qqqf qqqg qqqh qqqi qqqj qqqk qqql qqqm qqqn qqqo qqqp qqqq qqqr qqqs"

/-- A 50-word answer: two paragraphs, four sentence pieces, none of the
prompt keywords occurring in it. -/
def answerAb : String :=
  "ab ab ab ab ab. ab ab ab ab ab. ab ab ab ab ab.\n\nab ab ab ab ab ab ab ab ab ab ab ab ab ab ab ab ab ab ab ab ab ab ab ab ab ab ab ab ab ab ab ab ab ab ab"

/-- Candidate scoring completeness 1, length 1, structure 0.7 and
relevance 23/42 against `cex4Prompt`: weighted total `446/525 ≈ 0.84952`. -/
def cex4Faq : FaqData :=
  { title := some "Zebra Quark"
    answer := some answerAb
    category := some "General"
    keywords := some ["demo"] }

/-! ## Bounds on the individual quality metrics -/

/-- Auxiliary bound for the relevance base case. -/
theorem half_le_relevanceAux (a b : ℕ) :
    1 / 2 ≤ min (0.5 + (a : ℚ) / (b : ℚ) * 0.5) 1.0 := by
  refine le_min ?_ (by norm_num)
  have h : (0 : ℚ) ≤ (a : ℚ) / (b : ℚ) := by positivity
  linarith

/-- The relevance metric never drops below its base value `0.5`. -/
theorem relevance_ge_half (f : FaqData) (prompt : String) :
    1 / 2 ≤ evaluateRelevance f prompt := by
  unfold evaluateRelevance
  dsimp only
  split
  · exact half_le_relevanceAux _ _
  · norm_num

/-- The relevance metric is at most 1. -/
theorem relevance_le_one (f : FaqData) (prompt : String) :
    evaluateRelevance f prompt ≤ 1 := by
  unfold evaluateRelevance
  dsimp only
  split
  · exact le_trans (min_le_right _ _) (by norm_num)
  · norm_num

/-- The length metric is always at least `0.1`. -/
theorem length_ge_tenth (f : FaqData) : 1 / 10 ≤ evaluateLength f := by
  unfold evaluateLength
  dsimp only
  split_ifs <;> norm_num

/-- The length metric is at most 1. -/
theorem length_le_one (f : FaqData) : evaluateLength f ≤ 1 := by
  unfold evaluateLength
  dsimp only
  split_ifs <;> norm_num

/-- The completeness metric lies in `[0, 1]`. -/
theorem completeness_bounds (f : FaqData) :
    0 ≤ evaluateCompleteness f ∧ evaluateCompleteness f ≤ 1 := by
  obtain ⟨t, a, c, k⟩ := f
  unfold evaluateCompleteness
  cases t <;> cases a <;> cases c <;> cases k <;> dsimp only <;>
    constructor <;> (try split_ifs) <;> norm_num

/-- The structure metric lies in `[0, 1]`. -/
theorem structure_bounds (f : FaqData) :
    0 ≤ evaluateStructure f ∧ evaluateStructure f ≤ 1 := by
  unfold evaluateStructure
  dsimp only
  constructor
  · refine le_min ?_ (by norm_num)
    split_ifs <;> norm_num
  · exact le_trans (min_le_right _ _) (by norm_num)

/-- The weighted total lies in `[1/8, 1]`. -/
theorem totalScoreOf_bounds (f : FaqData) (prompt : String) :
    1 / 8 ≤ totalScoreOf f prompt ∧ totalScoreOf f prompt ≤ 1 := by
  have hc := completeness_bounds f
  have hs := structure_bounds f
  have hl1 := length_ge_tenth f
  have hl2 := length_le_one f
  have hr1 := relevance_ge_half f prompt
  have hr2 := relevance_le_one f prompt
  unfold totalScoreOf
  constructor <;> nlinarith [hc.1, hc.2, hs.1, hs.2]

/-- `round3` is monotone. -/
theorem round3_mono {a b : ℚ} (h : a ≤ b) : round3 a ≤ round3 b := by
  unfold round3
  have : ⌊a * 1000 + 1 / 2⌋ ≤ ⌊b * 1000 + 1 / 2⌋ := Int.floor_mono (by linarith)
  have : ((⌊a * 1000 + 1 / 2⌋ : ℤ) : ℚ) ≤ ((⌊b * 1000 + 1 / 2⌋ : ℤ) : ℚ) := by
    exact_mod_cast this
  linarith

/-- `round3` of a value in `[0, 1]` stays in `[0, 1]`. -/
theorem round3_bounds {q : ℚ} (h0 : 0 ≤ q) (h1 : q ≤ 1) :
    0 ≤ round3 q ∧ round3 q ≤ 1 := by
  unfold round3
  constructor
  · have : (0 : ℤ) ≤ ⌊q * 1000 + 1 / 2⌋ := Int.le_floor.mpr (by push_cast; linarith)
    have : (0 : ℚ) ≤ ((⌊q * 1000 + 1 / 2⌋ : ℤ) : ℚ) := by exact_mod_cast this
    linarith
  · have hle : ⌊q * 1000 + 1 / 2⌋ ≤ ⌊(2001 : ℚ) / 2⌋ := Int.floor_mono (by linarith)
    have h2 : ⌊(2001 : ℚ) / 2⌋ = 1000 := by
      rw [Int.floor_eq_iff]
      norm_num
    rw [h2] at hle
    have : ((⌊q * 1000 + 1 / 2⌋ : ℤ) : ℚ) ≤ 1000 := by exact_mod_cast hle
    linarith

/-- `round3` of a value that is at least `1/8` is at least `1/8`. -/
theorem round3_ge_eighth {q : ℚ} (h : 1 / 8 ≤ q) : 1 / 8 ≤ round3 q := by
  have h1 : round3 (1 / 8) = 1 / 8 := by
    unfold round3
    have : ⌊(1 : ℚ) / 8 * 1000 + 1 / 2⌋ = 125 := by
      rw [Int.floor_eq_iff]
      norm_num
    rw [this]
    norm_num
  calc (1 : ℚ) / 8 = round3 (1 / 8) := h1.symm
    _ ≤ round3 q := round3_mono h

/-- A successfully generated candidate always scores strictly above 0. -/
theorem score_pos (f : FaqData) (prompt : String) :
    0 < (evaluateQuality f prompt).score := by
  have h := round3_ge_eighth (totalScoreOf_bounds f prompt).1
  show (0 : ℚ) < round3 (totalScoreOf f prompt)
  linarith

/-! ## Claim C4 -/

/-- Claim C4 is false as stated: on this concrete candidate and prompt the
unrounded total is `446/525 ∈ [0.8495, 0.85)`, so the returned `level` is
`good`, yet the returned `score` rounds up to `0.85`, whose threshold level
would be `excellent`.  The level is therefore not a function of the
returned overall score. -/
theorem level_rounding_mismatch :
    (evaluateQuality cex4Faq cex4Prompt).score = 0.85 ∧
      (evaluateQuality cex4Faq cex4Prompt).level = "good" ∧
      getQualityLevel ((evaluateQuality cex4Faq cex4Prompt).score) = "excellent" ∧
      (evaluateQuality cex4Faq cex4Prompt).level ≠
        getQualityLevel ((evaluateQuality cex4Faq cex4Prompt).score) := by
  refine ⟨?_, ?_, ?_, ?_⟩ <;> with_unfolding_all decide

/-- Claim C4 (amended): `evaluateQuality` returns an overall score in
`[0, 1]`; `level` and `passed` are the pure threshold functions of the
unrounded weighted total (`passed` exactly at total ≥ 0.50), while the
returned score is that total rounded to three decimals — which at a
threshold boundary may differ from applying the thresholds to the rounded
score. -/
theorem evaluateQuality_bounds (f : FaqData) (prompt : String) :
    0 ≤ (evaluateQuality f prompt).score ∧
      (evaluateQuality f prompt).score ≤ 1 ∧
      (evaluateQuality f prompt).score = round3 (totalScoreOf f prompt) ∧
      (evaluateQuality f prompt).level = getQualityLevel (totalScoreOf f prompt) ∧
      ((evaluateQuality f prompt).passed = true ↔ 0.50 ≤ totalScoreOf f prompt) := by
  have hb := totalScoreOf_bounds f prompt
  have hr := round3_bounds (by linarith [hb.1]) hb.2
  exact ⟨hr.1, hr.2, rfl, rfl, by simp [evaluateQuality]⟩

/-- Claim C4 witness: the bounds theorem applied at a concrete candidate. -/
theorem evaluateQuality_bounds_witness :
    0 ≤ (evaluateQuality cex4Faq cex4Prompt).score ∧
      (evaluateQuality cex4Faq cex4Prompt).score ≤ 1 ∧
      (evaluateQuality cex4Faq cex4Prompt).score = round3 (totalScoreOf cex4Faq cex4Prompt) ∧
      (evaluateQuality cex4Faq cex4Prompt).level = getQualityLevel (totalScoreOf cex4Faq cex4Prompt) ∧
      ((evaluateQuality cex4Faq cex4Prompt).passed = true ↔ 0.50 ≤ totalScoreOf cex4Faq cex4Prompt) :=
  evaluateQuality_bounds cex4Faq cex4Prompt

/-! ## Claim C5 -/

/-- Claim C5: `getScenarioCode` returns `success` for a passing score and
otherwise the first metric below `0.5` in the fixed priority order
completeness, length, structure, relevance (`quality_low` when none is),
and on the breakdown `{completeness: 0.3, length: 0.9, structure: 0.9,
relevance: 0.9}` of a non-passing score it returns `incomplete_response`. -/
theorem getScenarioCode_priority :
    (∀ (passed : Bool) (b : Breakdown),
        getScenarioCode passed (some b) = .ok (classifySpec passed b)) ∧
      getScenarioCode false (some ⟨0.3, 0.9, 0.9, 0.9⟩) = .ok "incomplete_response" := by
  constructor
  · intro passed b
    cases passed <;> rfl
  · with_unfolding_all decide

/-! ## Claim C10 -/

/-- `classifyBreakdown` never yields `relevance_issue` when the relevance
metric is at least `0.5`. -/
theorem classifyBreakdown_ne_relevance {b : Breakdown} (h : 1 / 2 ≤ b.relevance) :
    classifyBreakdown b ≠ "relevance_issue" := by
  unfold classifyBreakdown
  split_ifs with h1 h2 h3 h4
  · with_unfolding_all decide
  · with_unfolding_all decide
  · with_unfolding_all decide
  · norm_num at h4
    linarith
  · with_unfolding_all decide

/-- Claim C10: the relevance subscore of every `evaluateQuality` output is
at least its base value `0.5`, so the `relevance < 0.5` branch of
`getScenarioCode` is unreachable and the classifier never returns
`relevance_issue` for an evaluator output. -/
theorem relevance_floor (f : FaqData) (prompt : String) :
    1 / 2 ≤ (evaluateQuality f prompt).breakdown.relevance ∧
      getScenarioCode (evaluateQuality f prompt).passed
          (some (evaluateQuality f prompt).breakdown) ≠ .ok "relevance_issue" := by
  have hr : 1 / 2 ≤ evaluateRelevance f prompt := relevance_ge_half f prompt
  refine ⟨hr, ?_⟩
  unfold getScenarioCode
  split
  · intro hcon
    injection hcon with h
    exact absurd h (by decide)
  · have hb : (evaluateQuality f prompt).breakdown.relevance = evaluateRelevance f prompt := rfl
    intro hcon
    have : classifyBreakdown (evaluateQuality f prompt).breakdown = "relevance_issue" := by
      injection hcon
    exact classifyBreakdown_ne_relevance (hb ▸ hr) this

/-! ## Claim C9 -/

/-- Claim C9: prompts of exactly 5 and exactly 5000 characters pass the
handler's validation and reach the learning core; prompts of 4 and 5001
characters are rejected with a validation error before the core runs. -/
theorem prompt_validation_boundaries (env : Env) (p : String) :
    (p.length = 5 → handler env p = .ok (generateWithLearning env p)) ∧
      (p.length = 5000 → handler env p = .ok (generateWithLearning env p)) ∧
      (p.length = 4 → ∃ msg, handler env p = .error msg) ∧
      (p.length = 5001 → ∃ msg, handler env p = .error msg) := by
  refine ⟨fun h => ?_, fun h => ?_, fun h => ?_, fun h => ?_⟩ <;>
    simp [handler, handlerValidate, h]

/-- An all-`a` prompt of the given length. -/
def pLen (n : Nat) : String := String.mk (List.replicate n 'a')

/-- The length of `pLen n` is `n`. -/
theorem pLen_length (n : Nat) : (pLen n).length = n := by
  show (List.replicate n 'a').length = n
  exact List.length_replicate n 'a'

/-- A placeholder environment for validation tests. -/
def envStub : Env := ⟨fun _ => .fail "stub", .ok none, .ok ()⟩

/-- Claim C9 witness: the boundary theorem applied to concrete prompts of
lengths 5, 5000, 4 and 5001. -/
theorem prompt_validation_boundaries_witness :
    handler envStub (pLen 5) = .ok (generateWithLearning envStub (pLen 5)) ∧
      handler envStub (pLen 5000) = .ok (generateWithLearning envStub (pLen 5000)) ∧
      (∃ msg, handler envStub (pLen 4) = .error msg) ∧
      (∃ msg, handler envStub (pLen 5001) = .error msg) :=
  ⟨(prompt_validation_boundaries envStub (pLen 5)).1 (pLen_length 5),
   (prompt_validation_boundaries envStub (pLen 5000)).2.1 (pLen_length 5000),
   (prompt_validation_boundaries envStub (pLen 4)).2.2.1 (pLen_length 4),
   (prompt_validation_boundaries envStub (pLen 5001)).2.2.2 (pLen_length 5001)⟩

/-! ## Claim C1 -/

/-- The first configuration of the C1 scenario. -/
def cfgA : Params := ⟨0.7, 1500, 0.9⟩

/-- The second (distinct) configuration of the C1 scenario. -/
def cfgB : Params := ⟨0.5, 1200, 0.85⟩

/-- The store after `upsert('success', cfgA, 0.6)` then
`upsert('success', cfgB, 0.4)` from an empty table. -/
def c1db : DB :=
  update_adaptive_param (update_adaptive_param [] "success" cfgA 0.6 1) "success" cfgB 0.4 2

/-- Every `update_adaptive_param` call adds exactly one to the total
success count of its scenario code (inserting a fresh `(code, params)` row
with count 1, or incrementing the matching row). -/
theorem totalSuccess_upsert (db : DB) (code : String) (p : Params) (s : ℚ) (now : Nat) :
    totalSuccess (update_adaptive_param db code p s now) code = totalSuccess db code + 1 := by
  induction db with
  | nil => simp [update_adaptive_param, totalSuccess]
  | cons r rest ih =>
    unfold update_adaptive_param
    split_ifs with h hlt
    · simp only [totalSuccess]
      rw [if_pos h.1, if_pos h.1]
      omega
    · simp only [totalSuccess]
      rw [if_pos h.1, if_pos h.1]
      omega
    · simp only [totalSuccess]
      rw [ih]
      omega

/-- A single `update_adaptive_param` call never decreases the best stored
score of any scenario code. -/
theorem bestScore_upsert (db : DB) (code : String) (p : Params) (s : ℚ) (now : Nat)
    (c : String) :
    bestScore db c ≤ bestScore (update_adaptive_param db code p s now) c := by
  induction db with
  | nil =>
    simp only [update_adaptive_param, bestScore]
    split_ifs
    · exact le_max_right _ _
    · exact le_refl _
  | cons r rest ih =>
    unfold update_adaptive_param
    split_ifs with h hlt
    · simp only [bestScore]
      by_cases hc : r.scenario_code = c
      · simp only [if_pos hc]
        exact max_le_max (le_of_lt hlt) (le_refl _)
      · simp only [if_neg hc]
        exact le_refl _
    · simp only [bestScore]
      by_cases hc : r.scenario_code = c
      · simp only [if_pos hc]
        exact le_refl _
      · simp only [if_neg hc]
        exact le_refl _
    · simp only [bestScore]
      by_cases hc : r.scenario_code = c
      · simp only [if_pos hc]
        exact max_le_max (le_refl _) ih
      · simp only [if_neg hc]
        exact ih

/-- Over a whole sequence of upserts the best stored score per scenario
code is monotone non-decreasing. -/
theorem bestScore_applyUpserts (ops : List (String × Params × ℚ × Nat)) :
    ∀ (db : DB) (c : String), bestScore db c ≤ bestScore (applyUpserts ops db) c := by
  induction ops with
  | nil => intro db c; simp [applyUpserts]
  | cons op rest ih =>
    intro db c
    obtain ⟨code, p, s, now⟩ := op
    exact le_trans (bestScore_upsert db code p s now c) (ih _ c)

set_option maxRecDepth 8000 in
/-- Claim C1 is false as stated: with two distinct configurations, the
second upsert does not hit the `(scenario_code, params)` conflict, so the
table ends with two rows for the scenario, each with `success_count = 1` —
no record's success count was incremented twice — even though
`get_best_params` does return `cfgA` at score 0.6. -/
theorem upsert_per_config_counts :
    get_best_params c1db "success" = some (cfgA, 0.6) ∧
      c1db.length = 2 ∧
      c1db.all (fun r => r.success_count == 1) = true := by
  refine ⟨?_, ?_, ?_⟩ <;> with_unfolding_all decide

set_option maxRecDepth 8000 in
/-- Claim C1 (amended): after `upsert('success', cfgA, 0.6)` then
`upsert('success', cfgB, 0.4)` on an empty store, `get_best_params`
returns `cfgA` at 0.6, and the scenario's success counts total 2 — one
per call, each recorded on its own `(scenario_code, params)` row rather
than twice on a single scenario record; in general every upsert adds
exactly one to the scenario's total success count, and the best stored
score per scenario code is monotone non-decreasing over any sequence of
upsert calls. -/
theorem upsert_best_monotone :
    get_best_params c1db "success" = some (cfgA, 0.6) ∧
      totalSuccess c1db "success" = 2 ∧
      (∀ (db : DB) (code : String) (p : Params) (s : ℚ) (now : Nat),
        totalSuccess (update_adaptive_param db code p s now) code =
          totalSuccess db code + 1) ∧
      (∀ (db : DB) (code : String) (p : Params) (s : ℚ) (now : Nat) (c : String),
        bestScore db c ≤ bestScore (update_adaptive_param db code p s now) c) ∧
      (∀ (ops : List (String × Params × ℚ × Nat)) (db : DB) (c : String),
        bestScore db c ≤ bestScore (applyUpserts ops db) c) :=
  ⟨by with_unfolding_all decide, by with_unfolding_all decide,
   totalSuccess_upsert, bestScore_upsert, fun ops db c => bestScore_applyUpserts ops db c⟩

/-! ## Claim C7 -/

/-- Claim C7: a failing `getBestParameters` query degrades to `null`, and
the whole run of `generateWithLearning` under a store read error is the
same as under an empty store — the error is never fatal to the request. -/
theorem read_error_equals_miss (g : Nat → GenOutcome) (w : Except String Unit)
    (prompt : String) (e : String) :
    getBestParameters (.error e) = none ∧
      generateWithLearning ⟨g, .error e, w⟩ prompt =
        generateWithLearning ⟨g, .ok none, w⟩ prompt :=
  ⟨rfl, rfl⟩

/-! ## Claim C2 -/

/-- A generation client that always fails at transport level. -/
def envGenFail : Env := ⟨fun _ => .fail "ECONNRESET", .ok none, .ok ()⟩

/-- Claim C2 fails on the code: when the default attempt's generation call
fails, `_attemptGeneration` builds the score-0 quality object without a
`breakdown`, and `getScenarioCode(defaultResult.quality)` then reads
`breakdown.completeness` of `undefined` — a `TypeError` that aborts the
request after a single generation call instead of continuing to the
adaptive strategies. -/
theorem default_attempt_failure_aborts :
    (generateWithLearning envGenFail "What is a black hole?").out =
        .error .breakdownUndefined ∧
      (generateWithLearning envGenFail "What is a black hole?").genCalls = 1 := by
  constructor <;> with_unfolding_all decide

/-! ## Claim C8 -/

/-- The attempt record produced by `_attemptGeneration` when the client
call succeeds with data `d`. -/
def okAttempt (d : FaqData) (prompt : String) (p : Params) (name : String) : AttemptRes :=
  { ok := true
    quality := { score := (evaluateQuality d prompt).score
                 passed := (evaluateQuality d prompt).passed
                 level := (evaluateQuality d prompt).level
                 breakdown := some ((evaluateQuality d prompt).breakdown) }
    data := some d
    log := { strategy := name, params := p
             qualityScore := some ((evaluateQuality d prompt).score)
             error := none } }

/-- Rewriting `attemptGeneration` when the client call succeeds. -/
theorem attemptGeneration_of_ok {g : Nat → GenOutcome} {i : Nat} {d : FaqData}
    (prompt : String) (p : Params) (name : String) (h : g i = .ok d) :
    attemptGeneration g i prompt p name = okAttempt d prompt p name := by
  unfold attemptGeneration okAttempt
  rw [h]

/-- Claim C8 (amended): when an attempt passes quality but the
`learnParameters` upsert fails, `DatabaseService.learnParameters` rethrows
and `generateWithLearning` propagates the store error — the passing
artifact is not returned. -/
theorem store_write_failure_propagates (g : Nat → GenOutcome) (prompt : String)
    (d : FaqData) (msg : String) (hg : g 0 = .ok d)
    (hp : (evaluateQuality d prompt).passed = true) :
    (generateWithLearning ⟨g, .ok none, .error msg⟩ prompt).out =
      .error (.dbWrite msg) := by
  show (afterLearned g (.error msg) prompt 0 [] none 0).out = .error (.dbWrite msg)
  unfold afterLearned
  rw [attemptGeneration_of_ok prompt defaultParams "default" hg]
  simp [okAttempt, hp, recordSuccess]

/-- A candidate that scores `0.9` (passing) against the prompt used in the
write-failure scenarios. -/
def goodFaq : FaqData :=
  { title := some "Ab Ab Ab"
    answer := some answerAb
    category := some "General"
    keywords := some ["demo"] }

/-- Claim C8 witness: the amended claim applied at a concrete passing
candidate and a failing store write. -/
theorem store_write_failure_propagates_witness :
    (generateWithLearning ⟨fun _ => .ok goodFaq, .ok none, .error "db down"⟩
        "What is adaptive learning?").out = .error (.dbWrite "db down") :=
  store_write_failure_propagates (fun _ => .ok goodFaq) "What is adaptive learning?"
    goodFaq "db down" rfl (by with_unfolding_all decide)

/-- The environment of the C8 counterexample: first attempt passes,
store writes fail. -/
def envWriteFail : Env :=
  ⟨fun _ => .ok goodFaq, .ok none, .error "connection terminated"⟩

/-- Claim C8 is false as stated: with a passing first attempt and a failing
store write, the run throws the store error instead of returning the
passing artifact with `success = true`. -/
theorem store_write_failure_aborts :
    (generateWithLearning envWriteFail "What is adaptive learning?").out =
      .error (.dbWrite "connection terminated") := by
  with_unfolding_all decide

/-! ## Claim C3 -/

/-- The strategy loop never pushes the generation-call count above
`maxAttempts`: a call is only issued while the running attempt count is
strictly below the budget. -/
theorem adaptiveLoop_calls_le (g : Nat → GenOutcome) (w : Except String Unit)
    (prompt : String) :
    ∀ (l : List (String × Params)) (n : Nat) (log : List LogEntry)
      (best : Option AttemptRes) (bq : ℚ), n ≤ maxAttempts →
      (adaptiveLoop g w prompt l n log best bq).genCalls ≤ maxAttempts := by
  intro l
  induction l with
  | nil =>
    intro n log best bq h
    simpa [adaptiveLoop] using h
  | cons hd tl ih =>
    intro n log best bq h
    obtain ⟨name, p⟩ := hd
    unfold adaptiveLoop
    by_cases h3 : maxAttempts ≤ n
    · rw [if_pos h3]
      simpa using h
    · rw [if_neg h3]
      have hn : n + 1 ≤ maxAttempts := by omega
      dsimp only
      by_cases hp : (attemptGeneration g n prompt p name).quality.passed = true
      · rw [if_pos hp]
        cases w with
        | error m => simpa [recordSuccess] using hn
        | ok u => simpa [recordSuccess] using hn
      · rw [if_neg hp]
        exact ih (n + 1) _ _ _ hn

/-- The default attempt plus the adaptive phase stay within the budget
whenever the attempt about to be made still fits. -/
theorem afterLearned_calls_le (g : Nat → GenOutcome) (w : Except String Unit)
    (prompt : String) (n : Nat) (log : List LogEntry) (best : Option AttemptRes)
    (bq : ℚ) (h : n + 1 ≤ maxAttempts) :
    (afterLearned g w prompt n log best bq).genCalls ≤ maxAttempts := by
  unfold afterLearned
  dsimp only
  by_cases hp : (attemptGeneration g n prompt defaultParams "default").quality.passed = true
  · rw [if_pos hp]
    cases w with
    | error m => simpa [recordSuccess] using h
    | ok u => simpa [recordSuccess] using h
  · rw [if_neg hp]
    cases hs : getScenarioCode (attemptGeneration g n prompt defaultParams "default").quality.passed
        (attemptGeneration g n prompt defaultParams "default").quality.breakdown with
    | error e => simpa [hs] using h
    | ok code =>
      simp only [hs]
      exact adaptiveLoop_calls_le g w prompt _ (n + 1) _ _ _ h

/-- Claim C3: for every prompt and every behaviour of the generation
client and store, a single `generateWithLearning` run issues at most
`maxAttempts` (3) generation calls. -/
theorem generation_calls_bounded (env : Env) (prompt : String) :
    (generateWithLearning env prompt).genCalls ≤ maxAttempts := by
  unfold generateWithLearning
  rcases hgl : getBestParameters env.dbRead with _ | lp
  · simp only [hgl]
    exact afterLearned_calls_le env.gen env.learnWrite prompt 0 [] none 0 (by decide)
  · simp only [hgl]
    by_cases hp : (attemptGeneration env.gen 0 prompt lp "learned").quality.passed = true
    · rw [if_pos hp]
      cases hw : env.learnWrite with
      | error m => simp [recordSuccess, hw, maxAttempts]
      | ok u => simp [recordSuccess, hw, maxAttempts]
    · rw [if_neg hp]
      exact afterLearned_calls_le env.gen env.learnWrite prompt 1 _ _ _ (by decide)

/-! ## Claim C6 -/

/-- Every scenario's strategy list (fallback included) has exactly two
entries. -/
theorem adaptiveStrategies_pair (c : String) :
    ∃ x y, adaptiveStrategies c = [x, y] := by
  unfold adaptiveStrategies
  split_ifs <;> exact ⟨_, _, rfl⟩

/-- Unfolding `generateWithLearning` when no learned parameters exist. -/
theorem gwl_none {env : Env} (prompt : String)
    (h : getBestParameters env.dbRead = none) :
    generateWithLearning env prompt =
      afterLearned env.gen env.learnWrite prompt 0 [] none 0 := by
  unfold generateWithLearning
  rw [h]

/-- Unfolding `generateWithLearning` when learned parameters exist and the
learned attempt completes without passing. -/
theorem gwl_some_fail {env : Env} (prompt : String) (lp : Params)
    (h : getBestParameters env.dbRead = some lp) {d : FaqData}
    (hg : env.gen 0 = .ok d) (hf : (evaluateQuality d prompt).passed = false) :
    generateWithLearning env prompt =
      afterLearned env.gen env.learnWrite prompt 1
        [(okAttempt d prompt lp "learned").log]
        (if 0 < (evaluateQuality d prompt).score then some (okAttempt d prompt lp "learned") else none)
        (if 0 < (evaluateQuality d prompt).score then (evaluateQuality d prompt).score else 0) := by
  unfold generateWithLearning
  rw [h]
  dsimp only
  rw [attemptGeneration_of_ok prompt lp "learned" hg]
  simp only [okAttempt, hf]
  rfl

/-- Unfolding `afterLearned` when the default attempt completes without
passing: classification succeeds (a breakdown exists) and control enters
the strategy loop for the classified scenario. -/
theorem afterLearned_fail {g : Nat → GenOutcome} (w : Except String Unit)
    (prompt : String) (n : Nat) (log : List LogEntry) (best : Option AttemptRes)
    (bq : ℚ) {d : FaqData} (hg : g n = .ok d)
    (hf : (evaluateQuality d prompt).passed = false) :
    afterLearned g w prompt n log best bq =
      adaptiveLoop g w prompt
        (adaptiveStrategies (classifyBreakdown (evaluateQuality d prompt).breakdown))
        (n + 1) (log ++ [(okAttempt d prompt defaultParams "default").log])
        (if bq < (evaluateQuality d prompt).score then some (okAttempt d prompt defaultParams "default") else best)
        (if bq < (evaluateQuality d prompt).score then (evaluateQuality d prompt).score else bq) := by
  unfold afterLearned
  rw [attemptGeneration_of_ok prompt defaultParams "default" hg]
  simp only [okAttempt, hf]
  rfl

/-- Unfolding one failing iteration of the strategy loop. -/
theorem adaptiveLoop_cons_fail {g : Nat → GenOutcome} (w : Except String Unit)
    (prompt : String) (nm : String) (p : Params) (rest : List (String × Params))
    (n : Nat) (log : List LogEntry) (best : Option AttemptRes) (bq : ℚ)
    (hn : ¬ maxAttempts ≤ n) {d : FaqData} (hg : g n = .ok d)
    (hf : (evaluateQuality d prompt).passed = false) :
    adaptiveLoop g w prompt ((nm, p) :: rest) n log best bq =
      adaptiveLoop g w prompt rest (n + 1) (log ++ [(okAttempt d prompt p nm).log])
        (if bq < (evaluateQuality d prompt).score then some (okAttempt d prompt p nm) else best)
        (if bq < (evaluateQuality d prompt).score then (evaluateQuality d prompt).score else bq) := by
  conv_lhs => rw [adaptiveLoop]
  rw [if_neg hn]
  dsimp only
  rw [attemptGeneration_of_ok prompt p nm hg]
  simp only [okAttempt, hf]
  rfl

/-- The loop breaks as soon as the attempt budget is consumed (also the
shape of plain exhaustion). -/
theorem adaptiveLoop_break {g : Nat → GenOutcome} (w : Except String Unit)
    (prompt : String) (l : List (String × Params)) (n : Nat) (log : List LogEntry)
    (best : Option AttemptRes) (bq : ℚ) (hn : maxAttempts ≤ n) :
    adaptiveLoop g w prompt l n log best bq = ⟨formatResponse best log n, n⟩ := by
  cases l with
  | nil => rfl
  | cons hd tl =>
    obtain ⟨nm, p⟩ := hd
    rw [adaptiveLoop, if_pos hn]

/-- Claim C6: when every generation attempt completes but none passes, the
run exhausts the budget: it returns (rather than throws) a response with
`success = false` after exactly `maxAttempts = 3` generation calls, whose
artifact is the data of the highest-scoring attempt, ties broken in
favour of the earliest attempt. -/
theorem exhaustion_returns_best (env : Env) (prompt : String) (d0 d1 d2 : FaqData)
    (h0 : env.gen 0 = .ok d0) (h1 : env.gen 1 = .ok d1) (h2 : env.gen 2 = .ok d2)
    (f0 : (evaluateQuality d0 prompt).passed = false)
    (f1 : (evaluateQuality d1 prompt).passed = false)
    (f2 : (evaluateQuality d2 prompt).passed = false) :
    ∃ resp : Response,
      (generateWithLearning env prompt).out = .ok resp ∧
        (generateWithLearning env prompt).genCalls = 3 ∧
        resp.success = false ∧
        resp.attempts = 3 ∧
        ((resp.faq = some d0 ∧
            (evaluateQuality d1 prompt).score ≤ (evaluateQuality d0 prompt).score ∧
            (evaluateQuality d2 prompt).score ≤ (evaluateQuality d0 prompt).score) ∨
          (resp.faq = some d1 ∧
            (evaluateQuality d0 prompt).score < (evaluateQuality d1 prompt).score ∧
            (evaluateQuality d2 prompt).score ≤ (evaluateQuality d1 prompt).score) ∨
          (resp.faq = some d2 ∧
            (evaluateQuality d0 prompt).score < (evaluateQuality d2 prompt).score ∧
            (evaluateQuality d1 prompt).score < (evaluateQuality d2 prompt).score)) := by
  rcases hgl : getBestParameters env.dbRead with _ | lp
  · rw [gwl_none prompt hgl,
      afterLearned_fail env.learnWrite prompt 0 [] none 0 h0 f0,
      if_pos (score_pos d0 prompt), if_pos (score_pos d0 prompt)]
    obtain ⟨⟨nm1, p1⟩, ⟨nm2, p2⟩, hst⟩ :=
      adaptiveStrategies_pair (classifyBreakdown (evaluateQuality d0 prompt).breakdown)
    rw [hst,
      adaptiveLoop_cons_fail env.learnWrite prompt nm1 p1 _ 1 _ _ _ (by decide) h1 f1,
      adaptiveLoop_cons_fail env.learnWrite prompt nm2 p2 _ 2 _ _ _ (by decide) h2 f2,
      adaptiveLoop_break env.learnWrite prompt [] 3 _ _ _ (by decide)]
    by_cases hc1 : (evaluateQuality d0 prompt).score < (evaluateQuality d1 prompt).score
    · simp only [if_pos hc1]
      by_cases hc2 : (evaluateQuality d1 prompt).score < (evaluateQuality d2 prompt).score
      · simp only [if_pos hc2]
        refine ⟨_, rfl, ?_, ?_, ?_, ?_⟩
        · trivial
        · simp [formatResponse, okAttempt, f2]
        · trivial
        · exact Or.inr (Or.inr ⟨by simp [formatResponse, okAttempt], lt_trans hc1 hc2, hc2⟩)
      · simp only [if_neg hc2]
        refine ⟨_, rfl, ?_, ?_, ?_, ?_⟩
        · trivial
        · simp [formatResponse, okAttempt, f1]
        · trivial
        · exact Or.inr (Or.inl ⟨by simp [formatResponse, okAttempt], hc1, not_lt.mp hc2⟩)
    · simp only [if_neg hc1]
      by_cases hc2 : (evaluateQuality d0 prompt).score < (evaluateQuality d2 prompt).score
      · simp only [if_pos hc2]
        refine ⟨_, rfl, ?_, ?_, ?_, ?_⟩
        · trivial
        · simp [formatResponse, okAttempt, f2]
        · trivial
        · exact Or.inr (Or.inr ⟨by simp [formatResponse, okAttempt], hc2,
            lt_of_le_of_lt (not_lt.mp hc1) hc2⟩)
      · simp only [if_neg hc2]
        refine ⟨_, rfl, ?_, ?_, ?_, ?_⟩
        · trivial
        · simp [formatResponse, okAttempt, f0]
        · trivial
        · exact Or.inl ⟨by simp [formatResponse, okAttempt], not_lt.mp hc1, not_lt.mp hc2⟩
  · rw [gwl_some_fail prompt lp hgl h0 f0,
      if_pos (score_pos d0 prompt), if_pos (score_pos d0 prompt),
      afterLearned_fail env.learnWrite prompt 1 _ _ _ h1 f1]
    obtain ⟨⟨nm1, p1⟩, ⟨nm2, p2⟩, hst⟩ :=
      adaptiveStrategies_pair (classifyBreakdown (evaluateQuality d1 prompt).breakdown)
    rw [hst,
      adaptiveLoop_cons_fail env.learnWrite prompt nm1 p1 _ 2 _ _ _ (by decide) h2 f2,
      adaptiveLoop_break env.learnWrite prompt [(nm2, p2)] 3 _ _ _ (by decide)]
    by_cases hc1 : (evaluateQuality d0 prompt).score < (evaluateQuality d1 prompt).score
    · simp only [if_pos hc1]
      by_cases hc2 : (evaluateQuality d1 prompt).score < (evaluateQuality d2 prompt).score
      · simp only [if_pos hc2]
        refine ⟨_, rfl, ?_, ?_, ?_, ?_⟩
        · trivial
        · simp [formatResponse, okAttempt, f2]
        · trivial
        · exact Or.inr (Or.inr ⟨by simp [formatResponse, okAttempt], lt_trans hc1 hc2, hc2⟩)
      · simp only [if_neg hc2]
        refine ⟨_, rfl, ?_, ?_, ?_, ?_⟩
        · trivial
        · simp [formatResponse, okAttempt, f1]
        · trivial
        · exact Or.inr (Or.inl ⟨by simp [formatResponse, okAttempt], hc1, not_lt.mp hc2⟩)
    · simp only [if_neg hc1]
      by_cases hc2 : (evaluateQuality d0 prompt).score < (evaluateQuality d2 prompt).score
      · simp only [if_pos hc2]
        refine ⟨_, rfl, ?_, ?_, ?_, ?_⟩
        · trivial
        · simp [formatResponse, okAttempt, f2]
        · trivial
        · exact Or.inr (Or.inr ⟨by simp [formatResponse, okAttempt], hc2,
            lt_of_le_of_lt (not_lt.mp hc1) hc2⟩)
      · simp only [if_neg hc2]
        refine ⟨_, rfl, ?_, ?_, ?_, ?_⟩
        · trivial
        · simp [formatResponse, okAttempt, f0]
        · trivial
        · exact Or.inl ⟨by simp [formatResponse, okAttempt], not_lt.mp hc1, not_lt.mp hc2⟩

/-- A candidate scoring 0.34 (below the acceptable threshold) against
`"What is a black hole?"`. -/
def lowFaq : FaqData :=
  { title := some "Bad", answer := some "short", category := none, keywords := none }

/-- A client that always completes with the failing candidate. -/
def envLow : Env := ⟨fun _ => .ok lowFaq, .ok none, .ok ()⟩

/-- Claim C6 witness: the exhaustion theorem applied to a concrete client
stub whose three attempts all complete below the threshold. -/
theorem exhaustion_returns_best_witness :
    ∃ resp : Response,
      (generateWithLearning envLow "What is a black hole?").out = .ok resp ∧
        (generateWithLearning envLow "What is a black hole?").genCalls = 3 ∧
        resp.success = false ∧
        resp.attempts = 3 ∧
        ((resp.faq = some lowFaq ∧
            (evaluateQuality lowFaq "What is a black hole?").score ≤
              (evaluateQuality lowFaq "What is a black hole?").score ∧
            (evaluateQuality lowFaq "What is a black hole?").score ≤
              (evaluateQuality lowFaq "What is a black hole?").score) ∨
          (resp.faq = some lowFaq ∧
            (evaluateQuality lowFaq "What is a black hole?").score <
              (evaluateQuality lowFaq "What is a black hole?").score ∧
            (evaluateQuality lowFaq "What is a black hole?").score ≤
              (evaluateQuality lowFaq "What is a black hole?").score) ∨
          (resp.faq = some lowFaq ∧
            (evaluateQuality lowFaq "What is a black hole?").score <
              (evaluateQuality lowFaq "What is a black hole?").score ∧
            (evaluateQuality lowFaq "What is a black hole?").score <
              (evaluateQuality lowFaq "What is a black hole?").score)) :=
  exhaustion_returns_best envLow "What is a black hole?" lowFaq lowFaq lowFaq rfl rfl rfl
    (by with_unfolding_all decide) (by with_unfolding_all decide)
    (by with_unfolding_all decide)
